import Mathlib

/-!
Shallow embedding of `src/bot.py`, a single-file Playwright automation
script that logs into a reporting portal, selects a report, sets a date
filter, triggers execution, polls for a download affordance, saves the
artifact and optionally emails it.

Pure module-level configuration (environment loading, the IST "yesterday"
date, the SMTP-port parse) is embedded as executable Lean functions.  The
browser-driven steps are embedded over explicit "world" structures whose
boolean fields record which DOM interactions succeed; the control flow of
each step (ordered fallback chains, exception swallowing, the polling
loop) is translated from the source.  The run produces an `Except` result
together with a trace of observable events (browser launch, poll attempts,
artifact save, email send).
-/

set_option maxRecDepth 8000

namespace Bot

/-! ### Python string/int primitives -/

/-- Digits of a natural number, most significant first; `fuel` bounds the
recursion depth and any `fuel > n` is sufficient. -/
def pyStrNatAux : Nat → Nat → List Char
  | 0, _ => []
  | fuel + 1, n =>
    if n < 10 then [Nat.digitChar n]
    else pyStrNatAux fuel (n / 10) ++ [Nat.digitChar (n % 10)]

/-- Decimal rendering of a natural number, as Python `str` produces. -/
def pyStrNat (n : Nat) : String := String.mk (pyStrNatAux (n + 1) n)

/-- Decimal rendering of an integer, as Python `str` produces. -/
def pyStrInt (i : Int) : String :=
  if i < 0 then "-" ++ pyStrNat i.natAbs else pyStrNat i.toNat

/-- No two adjacent underscores (part of Python's int-literal grammar). -/
def noDoubleUnd : List Char → Bool
  | '_' :: '_' :: _ => false
  | _ :: rest => noDoubleUnd rest
  | [] => true

/-- Last character is a digit. -/
def lastIsDigit : List Char → Bool
  | [] => false
  | [c] => c.isDigit
  | _ :: rest => lastIsDigit rest

/-- The characters of an int literal after the optional sign. -/
def pyIntCore (cs : List Char) : List Char :=
  match cs with
  | '+' :: r => r
  | '-' :: r => r
  | r => r

/-- Whether `s` (already whitespace-stripped) is accepted by Python
`int(s)`: optional sign, then digits with single underscores strictly
between digits. -/
def isPyIntLit (s : String) : Bool :=
  match pyIntCore s.toList with
  | [] => false
  | c :: rest =>
    c.isDigit && (c :: rest).all (fun x => x.isDigit || x = '_')
      && lastIsDigit (c :: rest) && noDoubleUnd (c :: rest)

/-- Numeric value of an accepted Python int literal. -/
def pyIntValue (s : String) : Int :=
  let neg : Bool := match s.toList with | '-' :: _ => true | _ => false
  let n : Nat := ((pyIntCore s.toList).filter (fun c => c ≠ '_')).foldl
    (fun a c => 10 * a + (c.toNat - 48)) 0
  if neg then -(n : Int) else (n : Int)

/-- Python `int(s)` on an already-stripped string: `some` value or a
`ValueError` (`none`). -/
def pyInt? (s : String) : Option Int :=
  if isPyIntLit s then some (pyIntValue s) else none

/-- Python `x or d` for an optional string `x` (as `os.getenv` returns):
`None` and the empty string are falsy and yield the default. -/
def pyOr (o : Option String) (d : String) : String :=
  match o with
  | none => d
  | some s => if s = "" then d else s

/-- `needle` is a prefix of `hay` (character lists). -/
def listStartsWith : List Char → List Char → Bool
  | [], _ => true
  | _ :: _, [] => false
  | a :: as, b :: bs => a == b && listStartsWith as bs

/-- `needle` occurs as a contiguous substring of `hay` (character lists). -/
def listHasSub (needle : List Char) : List Char → Bool
  | [] => needle.isEmpty
  | c :: rest => listStartsWith needle (c :: rest) || listHasSub needle rest

/-- Substring test on strings. -/
def strContains (hay needle : String) : Bool :=
  listHasSub needle.toList hay.toList

/-- Python `str.lower()` (ASCII model). -/
def pyLower (s : String) : String := String.mk (s.toList.map Char.toLower)

/-- The whitespace Python `str.strip()` removes by default. -/
def isPyWhitespace (c : Char) : Bool :=
  c = ' ' || c = '\t' || c = '\n' || c = '\r' || c = '\x0b' || c = '\x0c'

/-- Python `str.strip()`: whitespace removed from both ends. -/
def pyStrip (s : String) : String :=
  String.mk (((s.toList.dropWhile isPyWhitespace).reverse.dropWhile
    isPyWhitespace).reverse)

/-- Python `str.startswith(pre)`. -/
def pyStartsWith (s pre : String) : Bool :=
  listStartsWith pre.toList s.toList

/-! ### Dates: fixed UTC+5:30 clock, civil calendar -/

/-- The fixed IST offset (UTC+5:30) in seconds, from
`timezone(timedelta(hours=5, minutes=30))`. -/
def istOffsetSeconds : Int := 19800

/-- A machine clock: the UTC instant, and the host machine's own UTC
offset.  `datetime.now(IST)` converts the UTC instant with the fixed IST
offset; the host offset exists in the model only to show it is unused. -/
structure Clock where
  utcSeconds : Int
  hostOffsetSeconds : Int
deriving DecidableEq, Repr

/-- Days since the Unix epoch of the current IST calendar day, i.e.
`datetime.now(IST).date()`. -/
def istTodayDays (utcSeconds : Int) : Int :=
  (utcSeconds + istOffsetSeconds).fdiv 86400

/-- Civil (year, month, day) from days since the Unix epoch
(proleptic Gregorian), as Python's `datetime.date` arithmetic observes. -/
def civilFromDays (z : Int) : Int × Nat × Nat :=
  let z' := z + 719468
  let era := z'.fdiv 146097
  let doe := (z' - era * 146097).toNat
  let yoe := (doe - doe / 1460 + doe / 36524 - doe / 146096) / 365
  let doy := doe - (365 * yoe + yoe / 4 - yoe / 100)
  let mp := (5 * doy + 2) / 153
  let d := doy - (153 * mp + 2) / 5 + 1
  let m := if mp < 10 then mp + 3 else mp - 9
  (era * 400 + (yoe : Int) + (if m ≤ 2 then 1 else 0), m, d)

/-- Zero-padded two-digit rendering. -/
def pad2 (n : Nat) : String :=
  if n < 10 then "0" ++ pyStrNat n else pyStrNat n

/-- `date.isoformat()` for a day count: `YYYY-MM-DD`. -/
def isoOfDays (z : Int) : String :=
  let c := civilFromDays z
  pyStrInt c.1 ++ "-" ++ pad2 c.2.1 ++ "-" ++ pad2 c.2.2

/-- `date.strftime("%d/%m/%Y")` for a day count. -/
def dmySlashOfDays (z : Int) : String :=
  let c := civilFromDays z
  pad2 c.2.2 ++ "/" ++ pad2 c.2.1 ++ "/" ++ pyStrInt c.1

/-! ### Environment and module-level configuration -/

/-- The process environment as the script reads it: each variable is
either unset (`none`) or set to a string. -/
structure EnvVars where
  websiteUser : Option String
  websitePass : Option String
  loginUrl : Option String
  enableEmail : Option String
  fromEmail : Option String
  toEmail : Option String
  smtpServer : Option String
  smtpPort : Option String
  smtpUser : Option String
  smtpPass : Option String
  reportTitle : Option String
deriving DecidableEq, Repr

/-- Hardcoded default for `LOGIN_URL`. -/
def defaultLoginUrl : String :=
  "https://eclientreporting.nuvamaassetservices.com/wealthspectrum/app/loginWith"

/-- Hardcoded default for `REPORT_TITLE`. -/
def defaultReportTitle : String := "Statement of Cash Flows"

/-- `SMTP_PORT = int((os.getenv("SMTP_PORT") or "587").strip() or "587")`:
the parse that can raise `ValueError`. -/
def parseSmtpPort (o : Option String) : Option Int :=
  let s1 := pyOr o "587"
  let s2 := pyStrip s1
  let s3 := if s2 = "" then "587" else s2
  pyInt? s3

/-- The message of the `ValueError` raised by a failing `int(...)`. -/
def intParseErrMsg : String := "invalid literal for int() with base 10"

/-- The module-level configuration after all top-level assignments. -/
structure Config where
  username : String
  password : String
  loginUrl : String
  enableEmail : Bool
  fromEmail : String
  toEmail : String
  smtpServer : String
  smtpPort : Int
  smtpUser : String
  smtpPass : String
  reportTitle : String
  yesterday : Int
deriving DecidableEq, Repr

/-- Module-level configuration loading (lines 15-39 of `bot.py`): every
top-level assignment, including `TODAY`/`YESTERDAY` from the fixed IST
clock.  The only fallible assignment is the `int(...)` for `SMTP_PORT`. -/
def loadConfig (e : EnvVars) (clk : Clock) : Except String Config :=
  match parseSmtpPort e.smtpPort with
  | none => .error intParseErrMsg
  | some port =>
    .ok {
      username := e.websiteUser.getD ""
      password := e.websitePass.getD ""
      loginUrl := pyOr e.loginUrl defaultLoginUrl
      enableEmail := pyLower (pyStrip (e.enableEmail.getD "false")) = "true"
      fromEmail := pyStrip (e.fromEmail.getD "")
      toEmail := pyStrip (e.toEmail.getD "")
      smtpServer := pyStrip (e.smtpServer.getD "")
      smtpPort := port
      smtpUser := pyStrip (e.smtpUser.getD "")
      smtpPass := pyStrip (e.smtpPass.getD "")
      reportTitle := pyStrip (pyOr e.reportTitle defaultReportTitle)
      yesterday := istTodayDays clk.utcSeconds - 1 }

/-- `DEFAULT_FILENAME = f"cash_flows_{YESTERDAY.isoformat()}.xlsx"`. -/
def defaultFilename (cfg : Config) : String :=
  "cash_flows_" ++ isoOfDays cfg.yesterday ++ ".xlsx"

/-- `email_config_ok()`: requires the enable flag, then checks the six
values `FROM_EMAIL, TO_EMAIL, SMTP_SERVER, str(SMTP_PORT), SMTP_USER,
SMTP_PASS` for truthiness.  Note `str(SMTP_PORT)` stringifies an `int`. -/
def email_config_ok (cfg : Config) : Bool :=
  if !cfg.enableEmail then false
  else if cfg.fromEmail = "" || cfg.toEmail = "" || cfg.smtpServer = ""
      || pyStrInt cfg.smtpPort = "" || cfg.smtpUser = "" || cfg.smtpPass = "" then
    false
  else true

/-- Subject line built in `email_files` (the separator characters are the
mojibake literally present in the source). -/
def emailSubject (cfg : Config) : String :=
  cfg.reportTitle ++ " â€“ " ++ isoOfDays cfg.yesterday

/-- Body built in `email_files`. -/
def emailBody (cfg : Config) : String :=
  "Attached is the " ++ cfg.reportTitle ++ " for " ++ isoOfDays cfg.yesterday ++ "."

/-! ### Run errors and observable events -/

/-- The fatal errors `run_automation` can raise (each a `RuntimeError` or
a propagated `ValueError` in the source). -/
inductive RunError where
  | configError (msg : String)
  | missingCredentials
  | invalidLoginUrl
  | loginFieldsNotFound
  | reportsNavFailed
  | reportNotSelectable
  | dateStepRaised
  | executeNotClickable
  | downloadNeverReady
deriving DecidableEq, Repr

/-- Observable events of a run, in order: browser/network activity, the
date passed to the date-filter step, poll attempts with their waits, the
artifact save (with its path) and the email send. -/
inductive Event where
  | browserLaunch
  | gotoLogin
  | loginSubmit
  | reportsNav
  | reportSelected
  | dateStep (yesterday : Int)
  | warnDateDefault
  | executeAttempt
  | executeClick
  | pollAttempt (i : Nat)
  | wait (ms : Nat)
  | artifactSaved (path : String)
  | emailSent
deriving DecidableEq, Repr

/-- Exit status of `asyncio.run(run_automation())` under `__main__`:
an unhandled exception terminates the process non-zero. -/
def pyExitCode (r : Except RunError Unit) : Nat :=
  match r with
  | .ok _ => 0
  | .error _ => 1

/-! ### Step worlds: which DOM interactions succeed -/

/-- Login-step world: whether each of the three credential selector pairs
fills, and whether the placeholder-heuristic fallback fills. -/
structure LoginWorld where
  selectorFills : List Bool
  placeholderOk : Bool
deriving DecidableEq, Repr

/-- The login fields are filled by some strategy (selector pairs in
order, then the placeholder fallback). -/
def loginFilled (w : LoginWorld) : Bool :=
  w.selectorFills.any id || w.placeholderOk

/-- `select_report` world: one per page/frame context.  `panels` holds,
for each of the ten panel selectors in order, whether the panel is
present and whether clicking the matching option succeeds. -/
structure SelectWorld where
  nativePresent : Bool
  nativeOk : Bool
  boxClickOk : Bool
  comboClickOk : Bool
  panels : List (Bool × Bool)
  typingPresent : Bool
  typingOk : Bool
  textClickOk : Bool
deriving DecidableEq, Repr

/-- Strategy 1 of `select_report`: a native `<select>` is present and
`select_option(label=...)` succeeds. -/
def nativeSucc (w : SelectWorld) : Bool := w.nativePresent && w.nativeOk

/-- Strategy 2 of `select_report`: the custom dropdown opened (via the
label-adjacent control, else via the combobox role) and some panel both
exists and yields a successful option click. -/
def dropdownSucc (w : SelectWorld) : Bool :=
  (w.boxClickOk || w.comboClickOk) && w.panels.any (fun p => p.1 && p.2)

/-- Strategy 3 of `select_report`: a type-ahead input exists and the
click/fill/Enter sequence succeeds. -/
def typingSucc (w : SelectWorld) : Bool := w.typingPresent && w.typingOk

/-- Strategy 4 of `select_report`: the generic visible-text click. -/
def textSucc (w : SelectWorld) : Bool := w.textClickOk

/-- The four strategies of `select_report`, for the attempt trace. -/
inductive SelStrat where
  | native
  | dropdown
  | typing
  | textClick
deriving DecidableEq, Repr

/-- `select_report`: the ordered fallback chain with every strategy's
exception swallowed, together with the list of strategies attempted.
A strategy is attempted exactly when every earlier one failed. -/
def selectReportRun (w : SelectWorld) : Bool × List SelStrat :=
  if nativeSucc w then (true, [.native])
  else if dropdownSucc w then (true, [.native, .dropdown])
  else if typingSucc w then (true, [.native, .dropdown, .typing])
  else (textSucc w, [.native, .dropdown, .typing, .textClick])

/-- The boolean `select_report` returns to its caller. -/
def selectReport (w : SelectWorld) : Bool := (selectReportRun w).1

/-! #### Date step -/

/-- `set_as_on_date` world: visibility of the labelled input, the three
direct strategies, the four datepicker toggles, the four aria-label
formats, and the generic day-cell fallback. -/
structure DateWorld where
  inputVisible : Bool
  typeOk : Bool
  fillOk : Bool
  jsOk : Bool
  toggleOk : List Bool
  ariaOk : List Bool
  calPresent : Bool
  dayCellOk : Bool
deriving DecidableEq, Repr

/-- What `set_as_on_date` achieved, including the value it entered. -/
inductive DateOutcome where
  | typed (value : String)
  | filled (value : String)
  | jsSet (value : String)
  | ariaPicked
  | dayCell
  | defaultWarn
deriving DecidableEq, Repr

/-- All strategies of `set_as_on_date` fail on this world. -/
def allDateStrategiesFail (w : DateWorld) : Bool :=
  (!w.inputVisible || (!w.typeOk && !w.fillOk && !w.jsOk))
    && (!(w.toggleOk.any id) || (!(w.ariaOk.any id) && !(w.calPresent && w.dayCellOk)))

/-- `set_as_on_date(ctx, dt)`: strategies A (type dd/mm/YYYY), B (fill
ISO), C (JS setter), then D (datepicker toggle, aria-label day, generic
day cell).  Every fallible interaction sits inside a `try/except`, so the
function is total in the `Except` error component: it never returns
`.error`. -/
def setAsOnDate (dt : Int) (w : DateWorld) : Except Unit DateOutcome :=
  if w.inputVisible && w.typeOk then .ok (.typed (dmySlashOfDays dt))
  else if w.inputVisible && w.fillOk then .ok (.filled (isoOfDays dt))
  else if w.inputVisible && w.jsOk then .ok (.jsSet (dmySlashOfDays dt))
  else
    let opened := w.toggleOk.any id
    if opened && w.ariaOk.any id then .ok .ariaPicked
    else if opened && (w.calPresent && w.dayCellOk) then .ok .dayCell
    else .ok .defaultWarn

/-! #### Execute step -/

/-- `click_execute` world: the accessible names of the page's buttons,
the visible texts on the page, and whether the role-based click and the
text-fallback click succeed when their matcher finds a target. -/
structure ExecWorld where
  buttonNames : List String
  texts : List String
  roleClickOk : Bool
  textClickOk : Bool
deriving DecidableEq, Repr

/-- A word character in the sense of the regex `\b` boundary. -/
def isWordChar (c : Char) : Bool := c.isAlphanum || c = '_'

/-- The maximal words of a string, lowercased. -/
def wordsOf (s : String) : List (List Char) :=
  ((s.toList.map Char.toLower).splitOnP (fun c => !isWordChar c)).filter
    (fun w => !w.isEmpty)

/-- The regex `\bexecute\b` with `re.I`, searched in an accessible name. -/
def matchExecuteWord (s : String) : Bool :=
  (wordsOf s).contains "execute".toList

/-- Playwright `get_by_text("Execute", exact=False)`: case-insensitive
substring match on visible text. -/
def matchExecuteText (s : String) : Bool := strContains (pyLower s) "execute"

/-- `click_execute`: the role=button path with name `\bexecute\b`, then
the visible-text fallback, else screenshot and `RuntimeError`. -/
def clickExecute (w : ExecWorld) : Except RunError Unit :=
  if w.buttonNames.any matchExecuteWord && w.roleClickOk then .ok ()
  else if w.texts.any matchExecuteText && w.textClickOk then .ok ()
  else .error .executeNotClickable

/-! #### Polling and download -/

/-- The poll attempt budget: `for _ in range(180)`. -/
def pollBudget : Nat := 180

/-- The wait between unsuccessful poll attempts, in milliseconds. -/
def pollIntervalMs : Nat := 500

/-- Index of the first attempt (if any, within the budget) on which
`find_download_button` returns a locator. -/
def pollFirstReady (ready : Nat → Bool) : Option Nat :=
  (List.range pollBudget).find? ready

/-- Events of the first `n` poll attempts: each attempt, followed by the
fixed 500 ms wait when the attempt found nothing. -/
def pollTrace (n : Nat) (ready : Nat → Bool) : List Event :=
  (List.range n).flatMap
    (fun i => Event.pollAttempt i :: (if ready i then [] else [Event.wait pollIntervalMs]))

/-! ### The whole run -/

/-- A run's world: one `LoginWorld`, the reports-nav outcome, one
`SelectWorld` per context (page then frames), the date world, the execute
world, which poll attempt finds the download button, and the browser's
suggested download filename (empty when none is suggested). -/
structure World where
  login : LoginWorld
  navOk : Bool
  selects : List SelectWorld
  date : DateWorld
  execW : ExecWorld
  ready : Nat → Bool
  suggested : String

/-- `run_automation` up to (and including) saving the artifact: the
pre-flight config checks, then the eight browser-driven steps in order.
Returns the result and the event trace. -/
def runCore (cfg : Config) (w : World) : Except RunError Unit × List Event :=
  if cfg.username = "" ∨ cfg.password = "" then (.error .missingCredentials, [])
  else if ¬ (pyStartsWith cfg.loginUrl "http" = true) then (.error .invalidLoginUrl, [])
  else
    let ev1 : List Event := [.browserLaunch, .gotoLogin]
    if ¬ (loginFilled w.login = true) then (.error .loginFieldsNotFound, ev1)
    else
      let ev2 := ev1 ++ [.loginSubmit]
      if ¬ (w.navOk = true) then (.error .reportsNavFailed, ev2)
      else
        let ev3 := ev2 ++ [.reportsNav]
        if ¬ (w.selects.any selectReport = true) then (.error .reportNotSelectable, ev3)
        else
          let ev4 := ev3 ++ [.reportSelected]
          match setAsOnDate cfg.yesterday w.date with
          | .error _ => (.error .dateStepRaised, ev4)
          | .ok o =>
            let ev5 := ev4 ++ [.dateStep cfg.yesterday]
              ++ (if o = DateOutcome.defaultWarn then [.warnDateDefault] else [])
            let ev6 := ev5 ++ [.executeAttempt]
            match clickExecute w.execW with
            | .error e => (.error e, ev6)
            | .ok _ =>
              let ev7 := ev6 ++ [.executeClick]
              match pollFirstReady w.ready with
              | none => (.error .downloadNeverReady, ev7 ++ pollTrace pollBudget w.ready)
              | some k =>
                let ev8 := ev7 ++ pollTrace (k + 1) w.ready
                let name := if w.suggested = "" then defaultFilename cfg else w.suggested
                (.ok (), ev8 ++ [.artifactSaved ("downloads/" ++ name)])

/-- `run_automation`: the core steps, then the optional email step (sent
exactly when `email_config_ok()` holds, after the browser is closed). -/
def runAutomation (cfg : Config) (w : World) : Except RunError Unit × List Event :=
  match runCore cfg w with
  | (.ok _, ev) => if email_config_ok cfg then (.ok (), ev ++ [.emailSent]) else (.ok (), ev)
  | (.error e, ev) => (.error e, ev)

/-- The whole process: module-level configuration loading (which can
raise on a bad `SMTP_PORT`), then `asyncio.run(run_automation())`. -/
def runProgram (e : EnvVars) (clk : Clock) (w : World) : Except RunError Unit × List Event :=
  match loadConfig e clk with
  | .error msg => (.error (.configError msg), [])
  | .ok cfg => runAutomation cfg w

/-! ### Reachability predicates: which steps a run gets past -/

/-- The pre-flight checks pass and the login-field strategies succeed
through the reports-nav click. -/
@[reducible] def reachesNav (cfg : Config) (w : World) : Prop :=
  ¬(cfg.username = "" ∨ cfg.password = "") ∧ pyStartsWith cfg.loginUrl "http" = true ∧
    loginFilled w.login = true ∧ w.navOk = true

/-- `reachesNav` and some context's `select_report` succeeds. -/
@[reducible] def reachesSelectOk (cfg : Config) (w : World) : Prop :=
  reachesNav cfg w ∧ w.selects.any selectReport = true

/-- `reachesSelectOk` and the Execute click succeeds, so the run enters
the polling loop. -/
@[reducible] def reachesPoll (cfg : Config) (w : World) : Prop :=
  reachesSelectOk cfg w ∧ (clickExecute w.execW).isOk = true

/-- Event classifier: poll attempts. -/
def isPollAttempt : Event → Bool
  | .pollAttempt _ => true
  | _ => false

/-- Event classifier: artifact saves. -/
def isArtifactSaved : Event → Bool
  | .artifactSaved _ => true
  | _ => false

/-! ### Helper lemmas -/

theorem pyStrNatAux_ne_nil (fuel n : Nat) : pyStrNatAux (fuel + 1) n ≠ [] := by
  unfold pyStrNatAux
  split <;> simp

theorem pyStrNat_length_pos (n : Nat) : 0 < (pyStrNat n).length := by
  have h := pyStrNatAux_ne_nil n n
  rw [pyStrNat]
  simp only [String.length]
  cases hl : pyStrNatAux (n + 1) n with
  | nil => exact absurd hl h
  | cons a l => simp

theorem pyStrInt_ne_empty (i : Int) : pyStrInt i ≠ "" := by
  have hlen : 0 < (pyStrInt i).length := by
    unfold pyStrInt
    split
    · rw [String.length_append]
      have := pyStrNat_length_pos i.natAbs
      omega
    · exact pyStrNat_length_pos i.toNat
  intro h
  rw [h] at hlen
  simp at hlen

/-- Inversion of module-level loading: success determines every field. -/
theorem loadConfig_ok_iff (e : EnvVars) (clk : Clock) (cfg : Config) :
    loadConfig e clk = .ok cfg ↔
      ∃ port, parseSmtpPort e.smtpPort = some port ∧
        cfg = { username := e.websiteUser.getD ""
                password := e.websitePass.getD ""
                loginUrl := pyOr e.loginUrl defaultLoginUrl
                enableEmail := pyLower (pyStrip (e.enableEmail.getD "false")) = "true"
                fromEmail := pyStrip (e.fromEmail.getD "")
                toEmail := pyStrip (e.toEmail.getD "")
                smtpServer := pyStrip (e.smtpServer.getD "")
                smtpPort := port
                smtpUser := pyStrip (e.smtpUser.getD "")
                smtpPass := pyStrip (e.smtpPass.getD "")
                reportTitle := pyStrip (pyOr e.reportTitle defaultReportTitle)
                yesterday := istTodayDays clk.utcSeconds - 1 } := by
  unfold loadConfig
  cases hp : parseSmtpPort e.smtpPort <;> simp [hp, eq_comm]

theorem setAsOnDate_ne_error (dt : Int) (w : DateWorld) (u : Unit) :
    setAsOnDate dt w ≠ .error u := by
  simp only [setAsOnDate]
  split_ifs <;> simp

theorem setAsOnDate_isOk (dt : Int) (w : DateWorld) :
    (setAsOnDate dt w).isOk = true := by
  cases h : setAsOnDate dt w with
  | ok v => rfl
  | error u => exact absurd h (setAsOnDate_ne_error dt w u)

theorem mem_pollTrace {x : Event} {n : Nat} {r : Nat → Bool}
    (hx : x ∈ pollTrace n r) :
    (∃ i, i < n ∧ x = .pollAttempt i) ∨ x = .wait pollIntervalMs := by
  unfold pollTrace at hx
  rw [List.mem_flatMap] at hx
  obtain ⟨i, hi, hxi⟩ := hx
  rw [List.mem_range] at hi
  rw [List.mem_cons] at hxi
  rcases hxi with rfl | hxi
  · exact Or.inl ⟨i, hi, rfl⟩
  · right
    split at hxi <;> simp_all

theorem pollTrace_succ (m : Nat) (r : Nat → Bool) :
    pollTrace (m + 1) r = pollTrace m r ++
      (Event.pollAttempt m :: (if r m then [] else [Event.wait pollIntervalMs])) := by
  unfold pollTrace
  rw [List.range_succ, List.flatMap_append]
  simp

theorem filter_pollTrace (n : Nat) (r : Nat → Bool) :
    (pollTrace n r).filter isPollAttempt = (List.range n).map Event.pollAttempt := by
  induction n with
  | zero => rfl
  | succ m ih =>
    rw [pollTrace_succ, List.filter_append, ih, List.range_succ, List.map_append]
    split <;> simp [isPollAttempt]

theorem pollFirstReady_lt {r : Nat → Bool} {k : Nat}
    (h : pollFirstReady r = some k) : k < pollBudget := by
  unfold pollFirstReady at h
  have := List.mem_of_find?_eq_some h
  simpa [List.mem_range] using this

theorem pollFirstReady_eq_none {r : Nat → Bool}
    (h : ∀ i, i < pollBudget → r i = false) : pollFirstReady r = none := by
  unfold pollFirstReady
  rw [List.find?_eq_none]
  intro i hi
  rw [List.mem_range] at hi
  simp [h i hi]

/-- The warning events the date step leaves in the trace. -/
def dateWarnEvs (cfg : Config) (w : World) : List Event :=
  match setAsOnDate cfg.yesterday w.date with
  | .ok .defaultWarn => [Event.warnDateDefault]
  | _ => []

/-- The fixed event prefix once the report is selected, the date step
ran, and the Execute click is about to be attempted. -/
def preExec (cfg : Config) (w : World) : List Event :=
  [.browserLaunch, .gotoLogin, .loginSubmit, .reportsNav, .reportSelected,
   .dateStep cfg.yesterday]
    ++ dateWarnEvs cfg w
    ++ [.executeAttempt]

/-- The path the artifact is saved under. -/
def savedPath (cfg : Config) (w : World) : String :=
  "downloads/" ++ (if w.suggested = "" then defaultFilename cfg else w.suggested)

/-- Characterization of `runCore` once the run gets past report
selection: only the Execute click and the polling loop remain. -/
theorem runCore_reachSelect (cfg : Config) (w : World) (h : reachesSelectOk cfg w) :
    runCore cfg w =
      match clickExecute w.execW with
      | .error e => (.error e, preExec cfg w)
      | .ok _ =>
        match pollFirstReady w.ready with
        | none =>
          (.error .downloadNeverReady,
           preExec cfg w ++ [Event.executeClick] ++ pollTrace pollBudget w.ready)
        | some k =>
          (.ok (),
           preExec cfg w ++ [Event.executeClick] ++ pollTrace (k + 1) w.ready
             ++ [Event.artifactSaved (savedPath cfg w)]) := by
  obtain ⟨⟨h1, h2, h3, h4⟩, h5⟩ := h
  simp only [runCore, preExec, dateWarnEvs, h1, h2, h3, h4, h5]
  rcases hso : setAsOnDate cfg.yesterday w.date with u | o
  · exact absurd hso (setAsOnDate_ne_error cfg.yesterday w.date u)
  · simp only [hso, Except.ok.injEq]
    rcases hce : clickExecute w.execW with e | uu
    · cases o <;> simp
    · rcases hpf : pollFirstReady w.ready with _ | k <;> cases o <;> simp [savedPath]

/-- Characterization of `runCore` when the run fails before or at report
selection: one of the five early fatal outcomes. -/
theorem runCore_early (cfg : Config) (w : World) (h : ¬ reachesSelectOk cfg w) :
    runCore cfg w = (.error .missingCredentials, []) ∨
    runCore cfg w = (.error .invalidLoginUrl, []) ∨
    runCore cfg w = (.error .loginFieldsNotFound, [.browserLaunch, .gotoLogin]) ∨
    runCore cfg w =
      (.error .reportsNavFailed, [.browserLaunch, .gotoLogin, .loginSubmit]) ∨
    runCore cfg w =
      (.error .reportNotSelectable,
       [.browserLaunch, .gotoLogin, .loginSubmit, .reportsNav]) := by
  by_cases c1 : (cfg.username = "" ∨ cfg.password = "") <;>
    by_cases c2 : pyStartsWith cfg.loginUrl "http" = true <;>
      by_cases c3 : loginFilled w.login = true <;>
        by_cases c4 : w.navOk = true <;>
          by_cases c5 : w.selects.any selectReport = true <;>
            simp_all [runCore, reachesSelectOk, reachesNav]

theorem mem_dateWarnEvs {cfg : Config} {w : World} {x : Event}
    (hx : x ∈ dateWarnEvs cfg w) : x = Event.warnDateDefault := by
  unfold dateWarnEvs at hx
  split at hx <;> simp_all

theorem mem_preExec {cfg : Config} {w : World} {x : Event}
    (hx : x ∈ preExec cfg w) :
    x = .browserLaunch ∨ x = .gotoLogin ∨ x = .loginSubmit ∨ x = .reportsNav ∨
    x = .reportSelected ∨ x = .dateStep cfg.yesterday ∨ x = .warnDateDefault ∨
    x = .executeAttempt := by
  unfold preExec at hx
  simp only [List.mem_append, List.mem_cons, List.mem_singleton,
    List.not_mem_nil, or_false] at hx
  rcases hx with (hx | hx) | hx
  · tauto
  · exact Or.inr (Or.inr (Or.inr (Or.inr (Or.inr (Or.inr
      (Or.inl (mem_dateWarnEvs hx)))))))
  · tauto

/-- Every event a `runCore` trace can contain (in particular: the date
step always receives `cfg.yesterday`, every wait is the fixed interval,
and the only possible artifact save uses `savedPath`). -/
theorem runCore_events (cfg : Config) (w : World) :
    ∀ x ∈ (runCore cfg w).2,
      x = .browserLaunch ∨ x = .gotoLogin ∨ x = .loginSubmit ∨ x = .reportsNav ∨
      x = .reportSelected ∨ x = .dateStep cfg.yesterday ∨ x = .warnDateDefault ∨
      x = .executeAttempt ∨ x = .executeClick ∨ (∃ i, x = .pollAttempt i) ∨
      x = .wait pollIntervalMs ∨ x = .artifactSaved (savedPath cfg w) := by
  intro x hx
  by_cases h : reachesSelectOk cfg w
  · rw [runCore_reachSelect cfg w h] at hx
    rcases hce : clickExecute w.execW with e | u <;> rw [hce] at hx
    · simp only at hx
      have := mem_preExec hx
      tauto
    · rcases hpf : pollFirstReady w.ready with _ | k <;> rw [hpf] at hx <;>
        simp only [List.mem_append, List.mem_singleton] at hx
      · rcases hx with (hx | hx) | hx
        · have := mem_preExec hx
          tauto
        · tauto
        · rcases mem_pollTrace hx with ⟨i, _, rfl⟩ | rfl <;> tauto
      · rcases hx with ((hx | hx) | hx) | hx
        · have := mem_preExec hx
          tauto
        · tauto
        · rcases mem_pollTrace hx with ⟨i, _, rfl⟩ | rfl <;> tauto
        · tauto
  · rcases runCore_early cfg w h with h' | h' | h' | h' | h' <;> rw [h'] at hx <;>
      simp at hx <;> tauto

theorem filter_preExec (cfg : Config) (w : World) :
    (preExec cfg w).filter isPollAttempt = [] := by
  unfold preExec dateWarnEvs
  split <;> simp [isPollAttempt]

/-- The polling loop contributes at most `pollBudget` attempts. -/
theorem runCore_poll_count (cfg : Config) (w : World) :
    ((runCore cfg w).2.filter isPollAttempt).length ≤ pollBudget := by
  by_cases h : reachesSelectOk cfg w
  · rw [runCore_reachSelect cfg w h]
    rcases hce : clickExecute w.execW with e | u
    · simp [filter_preExec]
    · rcases hpf : pollFirstReady w.ready with _ | k
      · simp [List.filter_append, filter_preExec, filter_pollTrace, isPollAttempt]
      · have hk := pollFirstReady_lt hpf
        simp [List.filter_append, filter_preExec, filter_pollTrace, isPollAttempt]
        omega
  · rcases runCore_early cfg w h with h' | h' | h' | h' | h' <;> rw [h'] <;>
      simp [isPollAttempt]

theorem runAutomation_fst (cfg : Config) (w : World) :
    (runAutomation cfg w).1 = (runCore cfg w).1 := by
  simp only [runAutomation]
  rcases hrc : runCore cfg w with ⟨r, ev⟩
  rcases r with e | u
  · simp
  · cases u
    split_ifs <;> simp

theorem runAutomation_trace (cfg : Config) (w : World) :
    (runAutomation cfg w).2 = (runCore cfg w).2 ++
      (if (runCore cfg w).1.isOk = true ∧ email_config_ok cfg = true
       then [Event.emailSent] else []) := by
  simp only [runAutomation]
  rcases hrc : runCore cfg w with ⟨r, ev⟩
  rcases r with e | u
  · simp [Except.isOk, Except.toBool]
  · cases u
    split_ifs with hemail <;> simp_all [Except.isOk, Except.toBool]

/-- `email_config_ok` in terms of the five string fields: the
`str(SMTP_PORT)` entry can never be blank, so it never suppresses. -/
theorem email_config_ok_iff (cfg : Config) :
    email_config_ok cfg = true ↔
      (cfg.enableEmail = true ∧ cfg.fromEmail ≠ "" ∧ cfg.toEmail ≠ "" ∧
       cfg.smtpServer ≠ "" ∧ cfg.smtpUser ≠ "" ∧ cfg.smtpPass ≠ "") := by
  unfold email_config_ok
  split_ifs with h1 h2
  · simp_all
  · simp only [decide_eq_true_eq, Bool.or_eq_true] at h2
    constructor
    · intro h
      simp at h
    · intro h
      exfalso
      obtain ⟨_, hf, ht, hs, hu, hp⟩ := h
      rcases h2 with ((((h2 | h2) | h2) | h2) | h2) | h2
      · exact hf h2
      · exact ht h2
      · exact hs h2
      · exact pyStrInt_ne_empty cfg.smtpPort h2
      · exact hu h2
      · exact hp h2
  · simp only [decide_eq_true_eq, Bool.or_eq_true, not_or] at h1 h2
    simp_all

theorem runCore_no_email (cfg : Config) (w : World) :
    Event.emailSent ∉ (runCore cfg w).2 := by
  intro hx
  have := runCore_events cfg w _ hx
  simp at this

theorem runCore_dateStep {cfg : Config} {w : World} {d : Int}
    (hx : Event.dateStep d ∈ (runCore cfg w).2) : d = cfg.yesterday := by
  have := runCore_events cfg w _ hx
  simpa using this

theorem runCore_wait {cfg : Config} {w : World} {t : Nat}
    (hx : Event.wait t ∈ (runCore cfg w).2) : t = pollIntervalMs := by
  have := runCore_events cfg w _ hx
  simpa using this

theorem runCore_artifact {cfg : Config} {w : World} {p : String}
    (hx : Event.artifactSaved p ∈ (runCore cfg w).2) : p = savedPath cfg w := by
  have := runCore_events cfg w _ hx
  simpa using this

theorem mem_runAutomation_of_core {cfg : Config} {w : World} {x : Event}
    (hx : x ∈ (runCore cfg w).2) : x ∈ (runAutomation cfg w).2 := by
  rw [runAutomation_trace]
  exact List.mem_append_left _ hx

theorem mem_runAutomation {cfg : Config} {w : World} {x : Event}
    (hx : x ∈ (runAutomation cfg w).2) :
    x ∈ (runCore cfg w).2 ∨ x = Event.emailSent := by
  rw [runAutomation_trace] at hx
  rcases List.mem_append.mp hx with h | h
  · exact Or.inl h
  · right
    split at h <;> simp_all

theorem emailSent_mem_iff (cfg : Config) (w : World) :
    Event.emailSent ∈ (runAutomation cfg w).2 ↔
      ((runCore cfg w).1.isOk = true ∧ email_config_ok cfg = true) := by
  rw [runAutomation_trace]
  constructor
  · intro hx
    rcases List.mem_append.mp hx with h | h
    · exact absurd h (runCore_no_email cfg w)
    · split at h <;> simp_all
  · intro h
    rw [if_pos h]
    simp

/-- `set_as_on_date` when every strategy fails: the warning path. -/
theorem setAsOnDate_allFail (dt : Int) (w : DateWorld)
    (h : allDateStrategiesFail w = true) :
    setAsOnDate dt w = .ok .defaultWarn := by
  simp only [allDateStrategiesFail, Bool.and_eq_true, Bool.or_eq_true] at h
  simp only [setAsOnDate]
  split_ifs <;> simp_all

/-! ### Concrete fixtures used by the witnesses -/

/-- A clock instant in August 2025 on a host whose own zone is UTC-4;
the IST day is 2025-08-25, so the target date is 2025-08-24. -/
def clk0 : Clock := ⟨1756100000, -14400⟩

/-- A fully-populated environment. -/
def env0 : EnvVars :=
  ⟨some "alice", some "s3cret", none, some "true", some "from@x.com",
   some "to@x.com", some "smtp.x.com", some "2525", some "bot@x.com",
   some "smtppass", none⟩

/-- The configuration `loadConfig env0 clk0` produces. -/
def cfg0 : Config :=
  ⟨"alice", "s3cret", defaultLoginUrl, true, "from@x.com", "to@x.com",
   "smtp.x.com", 2525, "bot@x.com", "smtppass", defaultReportTitle, 20324⟩

/-- A context where the native `<select>` strategy works. -/
def selOk : SelectWorld := ⟨true, true, false, false, [], false, false, false⟩

/-- A context where all four selection strategies fail. -/
def selFail : SelectWorld :=
  ⟨false, true, true, false, [(true, false)], true, false, false⟩

/-- A date world where typing succeeds. -/
def dateOk : DateWorld := ⟨true, true, false, false, [], [], false, false⟩

/-- A date world where every strategy fails. -/
def dateFail : DateWorld :=
  ⟨false, false, false, false, [false, false, false, false],
   [false, false, false, false], false, false⟩

/-- A page whose Execute button exists and is clickable. -/
def execOk : ExecWorld := ⟨["Execute"], ["Execute"], true, true⟩

/-- A page whose only (clickable) button is labelled `Run`. -/
def execRunOnly : ExecWorld := ⟨["Run"], ["Run"], true, true⟩

/-- A world in which every step succeeds; the download button appears on
poll attempt 3 and a filename is suggested. -/
def world0 : World :=
  ⟨⟨[true, false, false], false⟩, true, [selOk], dateOk, execOk,
   fun i => decide (3 ≤ i), "Statement.xlsx"⟩

/-- `world0`, except the download affordance never appears. -/
def worldNeverReady : World := { world0 with ready := fun _ => false }

/-- `world0`, except every date strategy fails. -/
def worldDateFail : World := { world0 with date := dateFail }

/-- `world0`, except the only button is labelled `Run`. -/
def worldRunOnly : World := { world0 with execW := execRunOnly }

/-- `world0`, except every selection strategy fails in every context. -/
def worldSelFail : World := { world0 with selects := [selFail] }

/-- `env0` with the username variable set to the empty string. -/
def envNoUser : EnvVars := { env0 with websiteUser := some "" }

/-- The configuration `loadConfig envNoUser clk0` produces. -/
def cfgNoUser : Config := { cfg0 with username := "" }

/-- `env0` with `ENABLE_EMAIL=1` (not the string `true`). -/
def envEnableOne : EnvVars := { env0 with enableEmail := some "1" }

/-- The configuration `loadConfig envEnableOne clk0` produces. -/
def cfgEnableOne : Config := { cfg0 with enableEmail := false }

/-- `env0` with ill-formed `SMTP_PORT=12x` and email disabled. -/
def envBadPort : EnvVars :=
  { env0 with smtpPort := some "12x", enableEmail := some "false" }

/-- `env0` with blank `SMTP_PORT` (and every other SMTP field set). -/
def envBlankPort : EnvVars := { env0 with smtpPort := some "" }

/-! ### Claim theorems -/

/-- C1: for every configuration in which `WEBSITE_USER` or `WEBSITE_PASS`
is empty, or the effective `LOGIN_URL` is not an http(s) string (does not
start with `"http"`), `run_automation` raises before any browser is
launched or network interaction occurs (empty event trace), and the
process exits non-zero. -/
theorem c1_fail_fast (e : EnvVars) (clk : Clock) (cfg : Config) (w : World)
    (hload : loadConfig e clk = .ok cfg)
    (hbad : e.websiteUser.getD "" = "" ∨ e.websitePass.getD "" = "" ∨
      pyStartsWith (pyOr e.loginUrl defaultLoginUrl) "http" = false) :
    (runAutomation cfg w).1.isOk = false ∧ (runAutomation cfg w).2 = [] ∧
      pyExitCode (runAutomation cfg w).1 ≠ 0 := by
  obtain ⟨port, hp, rfl⟩ := (loadConfig_ok_iff e clk cfg).mp hload
  by_cases hc : (e.websiteUser.getD "" = "" ∨ e.websitePass.getD "" = "")
  · refine ⟨?_, ?_, ?_⟩ <;>
      simp [runAutomation_fst, runAutomation_trace, runCore, hc, pyExitCode,
        Except.isOk, Except.toBool]
  · rcases hbad with h | h | h
    · exact absurd (Or.inl h) hc
    · exact absurd (Or.inr h) hc
    · refine ⟨?_, ?_, ?_⟩ <;>
        simp [runAutomation_fst, runAutomation_trace, runCore, hc, h, pyExitCode,
          Except.isOk, Except.toBool]

/-- C1 witness: empty `WEBSITE_USER`, a successful world elsewhere. -/
theorem c1_fail_fast_witness :
    (runAutomation cfgNoUser world0).1.isOk = false ∧
    (runAutomation cfgNoUser world0).2 = [] ∧
    pyExitCode (runAutomation cfgNoUser world0).1 ≠ 0 :=
  c1_fail_fast envNoUser clk0 cfgNoUser world0 (by rfl) (Or.inl (by rfl))

/-- C9: the email-enable flag is true exactly when `ENABLE_EMAIL`, after
stripping and lowercasing, equals the string `true`; any other value
makes `email_config_ok` false and no email is ever sent, regardless of
the SMTP fields. -/
theorem c9_enable_email_strict (e : EnvVars) (clk : Clock) (cfg : Config)
    (hload : loadConfig e clk = .ok cfg) :
    (cfg.enableEmail = true ↔ pyLower (pyStrip (e.enableEmail.getD "false")) = "true") ∧
    (pyLower (pyStrip (e.enableEmail.getD "false")) ≠ "true" →
      email_config_ok cfg = false ∧
      ∀ w, Event.emailSent ∉ (runAutomation cfg w).2) := by
  obtain ⟨port, hp, hcfg⟩ := (loadConfig_ok_iff e clk cfg).mp hload
  have hen : cfg.enableEmail =
      decide (pyLower (pyStrip (e.enableEmail.getD "false")) = "true") := by
    rw [hcfg]
  constructor
  · rw [hen]
    simp [decide_eq_true_eq]
  · intro hne
    have hflag : cfg.enableEmail = false := by
      rw [hen]
      exact decide_eq_false hne
    have hmail : email_config_ok cfg = false := by
      unfold email_config_ok
      rw [hflag]
      simp
    refine ⟨hmail, ?_⟩
    intro w hx
    rw [runAutomation_trace] at hx
    rcases List.mem_append.mp hx with h | h
    · exact runCore_no_email cfg w h
    · split at h <;> simp_all

/-- C9 witness: `ENABLE_EMAIL=1` keeps email off even with all SMTP
fields populated. -/
theorem c9_enable_email_strict_witness :
    email_config_ok cfgEnableOne = false ∧
    Event.emailSent ∉ (runAutomation cfgEnableOne world0).2 := by
  have h := (c9_enable_email_strict envEnableOne clk0 cfgEnableOne (by rfl)).2
    (by decide)
  exact ⟨h.1, h.2 world0⟩

/-- C10: a `SMTP_PORT` value that is non-empty after stripping but not a
valid Python int literal aborts the whole program during module-level
loading (empty trace, before any step, whatever `ENABLE_EMAIL` is),
while an unset or stripped-empty `SMTP_PORT` silently defaults to 587. -/
theorem c10_port_parse (e : EnvVars) (clk : Clock) (w : World) :
    ((∃ s, e.smtpPort = some s ∧ pyStrip s ≠ "" ∧ isPyIntLit (pyStrip s) = false) →
      loadConfig e clk = .error intParseErrMsg ∧
      runProgram e clk w = (.error (.configError intParseErrMsg), [])) ∧
    ((e.smtpPort = none ∨ (∃ s, e.smtpPort = some s ∧ pyStrip s = "")) →
      ∃ cfg, loadConfig e clk = .ok cfg ∧ cfg.smtpPort = 587) := by
  constructor
  · rintro ⟨s, hs, hne, hlit⟩
    have hsne : s ≠ "" := by
      intro h
      rw [h] at hne
      exact hne rfl
    have hparse : parseSmtpPort e.smtpPort = none := by
      rw [hs]
      unfold parseSmtpPort pyOr pyInt?
      simp only [if_neg hsne, if_neg hne, hlit]
      simp
    have hl : loadConfig e clk = .error intParseErrMsg := by
      unfold loadConfig
      rw [hparse]
    refine ⟨hl, ?_⟩
    unfold runProgram
    rw [hl]
  · intro hcase
    have hparse : parseSmtpPort e.smtpPort = some 587 := by
      rcases hcase with h | ⟨s, hs, hst⟩
      · rw [h]
        rfl
      · rw [hs]
        simp only [parseSmtpPort, pyOr]
        by_cases hse : s = ""
        · simp only [if_pos hse]
          rfl
        · simp only [if_neg hse, hst, if_pos rfl]
          rfl
    exact ⟨_, by unfold loadConfig; rw [hparse], by rfl⟩

/-- C10 witness: `SMTP_PORT=12x` with email disabled still aborts. -/
theorem c10_port_parse_witness :
    loadConfig envBadPort clk0 = .error intParseErrMsg ∧
    runProgram envBadPort clk0 world0 = (.error (.configError intParseErrMsg), []) :=
  (c10_port_parse envBadPort clk0 world0).1 ⟨"12x", rfl, by decide, by decide⟩

/-- C2 counterexample: the claim says a blank `SMTP_PORT` (one of its six
SMTP fields) suppresses sending; but with `SMTP_PORT` blank and every
other field set, `email_config_ok` still holds (the port defaults to 587
and `str(587)` is non-empty) and the run does send the email. -/
theorem c2_counterexample :
    envBlankPort.smtpPort = some "" ∧
    (loadConfig envBlankPort clk0).map email_config_ok = .ok true ∧
    Event.emailSent ∈ (runProgram envBlankPort clk0 world0).2 := by
  refine ⟨rfl, rfl, ?_⟩
  decide

/-- C2 amended: the email is sent iff the run succeeded, the enable flag
is true and the five string SMTP fields are non-empty — a blank
`SMTP_PORT` never suppresses because it is parsed (defaulting to 587)
before the check and `str` of an int is never empty; and the email
configuration has no effect on the browser-driven part of the run (the
artifact in particular). -/
theorem c2_email_iff (cfg : Config) (w : World) :
    (Event.emailSent ∈ (runAutomation cfg w).2 ↔
      ((runAutomation cfg w).1.isOk = true ∧ email_config_ok cfg = true)) ∧
    (email_config_ok cfg = true ↔
      (cfg.enableEmail = true ∧ cfg.fromEmail ≠ "" ∧ cfg.toEmail ≠ "" ∧
       cfg.smtpServer ≠ "" ∧ cfg.smtpUser ≠ "" ∧ cfg.smtpPass ≠ "")) ∧
    (∀ cfg' : Config, cfg'.username = cfg.username → cfg'.password = cfg.password →
      cfg'.loginUrl = cfg.loginUrl → cfg'.yesterday = cfg.yesterday →
      runCore cfg' w = runCore cfg w) := by
  refine ⟨?_, email_config_ok_iff cfg, ?_⟩
  · rw [emailSent_mem_iff, runAutomation_fst]
  · intro cfg' h1 h2 h3 h4
    simp only [runCore, defaultFilename, h1, h2, h3, h4]

/-- C2 amended witness: changing only an email field leaves the core run
(and so the artifact) untouched. -/
theorem c2_email_iff_witness :
    runCore { cfg0 with fromEmail := "" } world0 = runCore cfg0 world0 :=
  (c2_email_iff cfg0 world0).2.2 { cfg0 with fromEmail := "" } rfl rfl rfl rfl

/-- C3: the target date is the day before the current IST day, computed
from the UTC instant and the fixed +05:30 offset only (the host zone is
ignored, and the whole loaded configuration is independent of it); the
date-filter argument, the default filename, and the email subject and
body are all derived from that one value. -/
theorem c3_yesterday_ist (e : EnvVars) (utc hz hz' : Int) (cfg : Config)
    (hload : loadConfig e ⟨utc, hz⟩ = .ok cfg) :
    loadConfig e ⟨utc, hz'⟩ = loadConfig e ⟨utc, hz⟩ ∧
    cfg.yesterday = istTodayDays utc - 1 ∧
    defaultFilename cfg = "cash_flows_" ++ isoOfDays (istTodayDays utc - 1) ++ ".xlsx" ∧
    emailSubject cfg = cfg.reportTitle ++ " â€“ " ++ isoOfDays (istTodayDays utc - 1) ∧
    emailBody cfg = "Attached is the " ++ cfg.reportTitle ++ " for "
      ++ isoOfDays (istTodayDays utc - 1) ++ "." ∧
    (∀ w d, Event.dateStep d ∈ (runAutomation cfg w).2 → d = istTodayDays utc - 1) := by
  obtain ⟨port, hp, rfl⟩ := (loadConfig_ok_iff e ⟨utc, hz⟩ cfg).mp hload
  refine ⟨rfl, rfl, rfl, rfl, rfl, ?_⟩
  intro w d hd
  rcases mem_runAutomation hd with h | h
  · exact runCore_dateStep h
  · simp at h

/-- C3 witness: a concrete late-night-UTC instant, two different host
zones, and the resulting 2025-08-24 target date visible in the date step
of a concrete run. -/
theorem c3_yesterday_ist_witness :
    loadConfig env0 ⟨1756100000, 19800⟩ = loadConfig env0 ⟨1756100000, -14400⟩ ∧
    cfg0.yesterday = istTodayDays 1756100000 - 1 ∧
    (20324 : Int) = istTodayDays 1756100000 - 1 := by
  have h := c3_yesterday_ist env0 1756100000 (-14400) 19800 cfg0 (by rfl)
  exact ⟨h.1, h.2.1, h.2.2.2.2.2 world0 20324 (by decide)⟩

/-- C4: the completion poll makes at most 180 attempts, every wait
between attempts is the fixed 500 ms interval, and if the download
affordance appears on none of the attempts in a run that reached the
poll, the run fails with the timeout error and no artifact is saved. -/
theorem c4_poll_budget (cfg : Config) (w : World) :
    ((runAutomation cfg w).2.filter isPollAttempt).length ≤ pollBudget ∧
    (∀ t, Event.wait t ∈ (runAutomation cfg w).2 → t = pollIntervalMs) ∧
    ((∀ i, i < pollBudget → w.ready i = false) → reachesPoll cfg w →
      (runAutomation cfg w).1 = .error .downloadNeverReady ∧
      ∀ p, Event.artifactSaved p ∉ (runAutomation cfg w).2) := by
  refine ⟨?_, ?_, ?_⟩
  · rw [runAutomation_trace, List.filter_append]
    have h1 := runCore_poll_count cfg w
    split_ifs <;> simpa [isPollAttempt] using h1
  · intro t ht
    rcases mem_runAutomation ht with h | h
    · exact runCore_wait h
    · simp at h
  · intro hready hreach
    have hnone := pollFirstReady_eq_none hready
    have hchar := runCore_reachSelect cfg w hreach.1
    rcases hce : clickExecute w.execW with e | u
    · exfalso
      have h2 := hreach.2
      rw [hce] at h2
      simp [Except.isOk, Except.toBool] at h2
    · rw [hce, hnone] at hchar
      simp only at hchar
      constructor
      · rw [runAutomation_fst, hchar]
      · intro p hp
        rcases mem_runAutomation hp with h | h
        · rw [hchar] at h
          simp only [List.mem_append, List.mem_singleton] at h
          rcases h with (h | h) | h
          · exact absurd (mem_preExec h) (by simp)
          · exact absurd h (by simp)
          · rcases mem_pollTrace h with ⟨i, _, hh⟩ | hh <;> simp at hh
        · simp at h

/-- C4 witness: the affordance never appears, the run times out and
saves nothing. -/
theorem c4_poll_budget_witness :
    (runAutomation cfg0 worldNeverReady).1 = .error .downloadNeverReady :=
  ((c4_poll_budget cfg0 worldNeverReady).2.2 (fun _ _ => rfl) (by decide)).1

/-- C5: `set_as_on_date` never raises to its caller (it is total in the
error component); when every strategy fails it returns only the warning
outcome; and a run that got past report selection always goes on to
attempt the Execute step — with the warning logged when all date
strategies failed. -/
theorem c5_date_nonfatal :
    (∀ dt w, (setAsOnDate dt w).isOk = true) ∧
    (∀ dt w, allDateStrategiesFail w = true →
      setAsOnDate dt w = .ok .defaultWarn) ∧
    (∀ cfg w, reachesSelectOk cfg w →
      Event.executeAttempt ∈ (runAutomation cfg w).2 ∧
      (allDateStrategiesFail w.date = true →
        Event.warnDateDefault ∈ (runAutomation cfg w).2)) := by
  refine ⟨setAsOnDate_isOk, setAsOnDate_allFail, ?_⟩
  intro cfg w hreach
  have hchar := runCore_reachSelect cfg w hreach
  have hexe : Event.executeAttempt ∈ (runCore cfg w).2 := by
    rw [hchar]
    rcases hce : clickExecute w.execW with e | u
    · simp [preExec]
    · rcases hpf : pollFirstReady w.ready with _ | k <;> simp [preExec]
  refine ⟨mem_runAutomation_of_core hexe, ?_⟩
  intro hfail
  have hw : dateWarnEvs cfg w = [Event.warnDateDefault] := by
    unfold dateWarnEvs
    rw [setAsOnDate_allFail cfg.yesterday w.date hfail]
  apply mem_runAutomation_of_core
  rw [hchar]
  rcases hce : clickExecute w.execW with e | u
  · simp [preExec, hw]
  · rcases hpf : pollFirstReady w.ready with _ | k <;> simp [preExec, hw]

/-- C5 witness: a run in which every date strategy fails still logs the
warning and reaches the Execute step. -/
theorem c5_date_nonfatal_witness :
    Event.executeAttempt ∈ (runAutomation cfg0 worldDateFail).2 ∧
    Event.warnDateDefault ∈ (runAutomation cfg0 worldDateFail).2 := by
  have h := c5_date_nonfatal.2.2 cfg0 worldDateFail (by decide)
  exact ⟨h.1, h.2 (by decide)⟩

/-- C6: `select_report` tries its four strategies in a fixed order, a
failing (throwing) earlier strategy only moves the chain on to the next
one, success of any strategy yields `True`, `False` arises only with all
four strategies exhausted and failed, and then the caller (when it has
reached the selection step and every context fails) fails the run with
the report-not-selectable error. -/
theorem c6_select_chain (w : SelectWorld) :
    (selectReport w = true ↔
      (nativeSucc w = true ∨ dropdownSucc w = true ∨ typingSucc w = true ∨
       textSucc w = true)) ∧
    (nativeSucc w = false → SelStrat.dropdown ∈ (selectReportRun w).2) ∧
    (nativeSucc w = false → dropdownSucc w = false →
      SelStrat.typing ∈ (selectReportRun w).2) ∧
    (nativeSucc w = false → dropdownSucc w = false → typingSucc w = false →
      SelStrat.textClick ∈ (selectReportRun w).2) ∧
    (selectReport w = false →
      (selectReportRun w).2 = [.native, .dropdown, .typing, .textClick] ∧
      nativeSucc w = false ∧ dropdownSucc w = false ∧ typingSucc w = false ∧
      textSucc w = false) ∧
    (∀ cfg rw, reachesNav cfg rw → rw.selects.any selectReport = false →
      (runAutomation cfg rw).1 = .error .reportNotSelectable) := by
  refine ⟨?_, ?_, ?_, ?_, ?_, ?_⟩
  · unfold selectReport selectReportRun
    split_ifs <;> simp_all
  · intro h1
    unfold selectReportRun
    split_ifs <;> simp_all
  · intro h1 h2
    unfold selectReportRun
    split_ifs <;> simp_all
  · intro h1 h2 h3
    unfold selectReportRun
    split_ifs <;> simp_all
  · intro h
    unfold selectReport at h
    unfold selectReportRun at h ⊢
    split_ifs at h ⊢
    simp_all
  · intro cfg rw hnav hsel
    obtain ⟨h1, h2, h3, h4⟩ := hnav
    rw [runAutomation_fst]
    simp [runCore, h1, h2, h3, h4, hsel]

/-- C6 witness: with every strategy failing in the only context, the run
fails with the selection error. -/
theorem c6_select_chain_witness :
    (runAutomation cfg0 worldSelFail).1 = .error .reportNotSelectable :=
  (c6_select_chain selFail).2.2.2.2.2 cfg0 worldSelFail (by decide) (by decide)

/-- C7 counterexample: the claim says a button labelled `Run` (one of
Execute/Run/Generate/Submit/View Report) is clicked; but on a page whose
only button is `Run` — present, clickable, both matchers allowed —
`click_execute` raises instead: the code only matches the label
`Execute`. -/
theorem c7_counterexample :
    "Run" ∈ ["Execute", "Run", "Generate", "Submit", "View Report"] ∧
    "Run" ∈ execRunOnly.buttonNames ∧ "Run" ∈ execRunOnly.texts ∧
    execRunOnly.roleClickOk = true ∧ execRunOnly.textClickOk = true ∧
    clickExecute execRunOnly = .error .executeNotClickable := by
  refine ⟨by decide, by decide, by decide, rfl, rfl, rfl⟩

/-- C7 amended: the execution trigger clicks a button matched by the
single label `Execute` (case-insensitive whole word via the button role,
then case-insensitive substring via visible text); if neither `Execute`
matcher can click, the run fails with the execute error — labels Run,
Generate, Submit and View Report are not matched. -/
theorem c7_execute_label (w : ExecWorld) :
    (clickExecute w = .ok () ↔
      ((w.buttonNames.any matchExecuteWord = true ∧ w.roleClickOk = true) ∨
       (w.texts.any matchExecuteText = true ∧ w.textClickOk = true))) ∧
    (clickExecute w = .error .executeNotClickable ∨ clickExecute w = .ok ()) ∧
    (matchExecuteWord "Run" = false ∧ matchExecuteWord "Generate" = false ∧
     matchExecuteWord "Submit" = false ∧ matchExecuteWord "View Report" = false ∧
     matchExecuteText "Run" = false ∧ matchExecuteText "Generate" = false ∧
     matchExecuteText "Submit" = false ∧ matchExecuteText "View Report" = false) ∧
    (∀ cfg rw, rw.execW = w → reachesSelectOk cfg rw →
      clickExecute w = .error .executeNotClickable →
      (runAutomation cfg rw).1 = .error .executeNotClickable) := by
  refine ⟨?_, ?_, by decide, ?_⟩
  · unfold clickExecute
    split_ifs with h1 h2
    · rw [Bool.and_eq_true] at h1
      simp [h1]
    · rw [Bool.and_eq_true] at h2
      simp [h2]
    · rw [Bool.and_eq_true, not_and] at h1 h2
      constructor
      · intro h
        simp at h
      · rintro (⟨ha, hb⟩ | ⟨ha, hb⟩)
        · exact absurd hb (h1 ha)
        · exact absurd hb (h2 ha)
  · unfold clickExecute
    split_ifs <;> simp
  · intro cfg rw hw hreach hce
    subst hw
    rw [runAutomation_fst, runCore_reachSelect cfg rw hreach, hce]

/-- C7 amended witness: the `Run`-only page makes the whole run fail
with the execute error. -/
theorem c7_execute_label_witness :
    (runAutomation cfg0 worldRunOnly).1 = .error .executeNotClickable :=
  (c7_execute_label execRunOnly).2.2.2 cfg0 worldRunOnly rfl (by decide) (by rfl)

/-- C8: a successful run saves exactly one artifact, into the fixed
`downloads` directory, under the suggested filename when one is
suggested and under the deterministic `cash_flows_<yesterday>.xlsx`
default otherwise. -/
theorem c8_artifact_path (cfg : Config) (w : World)
    (hok : (runAutomation cfg w).1.isOk = true) :
    Event.artifactSaved (savedPath cfg w) ∈ (runAutomation cfg w).2 ∧
    (∀ p, Event.artifactSaved p ∈ (runAutomation cfg w).2 → p = savedPath cfg w) ∧
    savedPath cfg w =
      "downloads/" ++ (if w.suggested = "" then defaultFilename cfg else w.suggested) ∧
    defaultFilename cfg = "cash_flows_" ++ isoOfDays cfg.yesterday ++ ".xlsx" := by
  have hok' : (runCore cfg w).1.isOk = true := by
    rw [← runAutomation_fst]
    exact hok
  by_cases h : reachesSelectOk cfg w
  · have hchar := runCore_reachSelect cfg w h
    rcases hce : clickExecute w.execW with e | u
    · rw [hce] at hchar
      rw [hchar] at hok'
      simp [Except.isOk, Except.toBool] at hok'
    · rcases hpf : pollFirstReady w.ready with _ | k
      · rw [hce, hpf] at hchar
        rw [hchar] at hok'
        simp [Except.isOk, Except.toBool] at hok'
      · rw [hce, hpf] at hchar
        simp only at hchar
        refine ⟨?_, ?_, rfl, rfl⟩
        · apply mem_runAutomation_of_core
          rw [hchar]
          simp
        · intro p hp
          rcases mem_runAutomation hp with hm | hm
          · exact runCore_artifact hm
          · simp at hm
  · exfalso
    rcases runCore_early cfg w h with h' | h' | h' | h' | h' <;> rw [h'] at hok' <;>
      simp [Except.isOk, Except.toBool] at hok'

/-- C8 witness: the successful fixture run saves the suggested filename
under `downloads/`. -/
theorem c8_artifact_path_witness :
    Event.artifactSaved (savedPath cfg0 world0) ∈ (runAutomation cfg0 world0).2 ∧
    savedPath cfg0 world0 = "downloads/Statement.xlsx" :=
  ⟨(c8_artifact_path cfg0 world0 (by decide)).1, by decide⟩

end Bot
